import Mathlib

/-!
# Verification of the DWM3000 two-way-ranging examples

Shallow embedding of the ranging arithmetic and control flow of the
DW3000 example applications:

* `ds_twr_responder_sts.c`  (DS-TWR responder, STS)
* `ds_twr_initiator_sts.c`  (DS-TWR initiator, STS)
* `ds_twr_sts_sdc_responder.c` (DS-TWR responder, STS/SDC)
* `ss_twr_initiator_sts_no_data.c` (SS-TWR initiator)
* `mac_802_15_8.c` (AES frame security, RX path)

C machine integers are embedded as `Nat`/`Int` with explicit reductions
modulo `2^16`, `2^32`, `2^40`; C `double` arithmetic is embedded exactly
over `ℚ` (the C cast of a `double` quotient to `int64_t` becomes
truncation toward zero, `ratTrunc`).  Helpers that live in files of the
repository not present under `src/` (`shared_functions.c`,
`shared_defines.h`, the radio driver) are modelled from the spec and
marked as such in their doc comments.
-/

namespace DWM3000

/-! ## Machine-integer helpers -/

/-- Truncation to an unsigned 16-bit value (C `uint16_t`). -/
def u16 (x : ℕ) : ℕ := x % 65536

/-- Truncation to an unsigned 32-bit value (C `uint32_t`, e.g. the cast
`(uint32_t)poll_rx_ts` in `ds_twr_responder_sts.c` line 374). -/
def u32 (x : ℕ) : ℕ := x % 4294967296

/-- Truncation to a 40-bit value: the DW3000 system clock wraps at
`2^40` device time units, so a captured timestamp is the true event
time modulo `2^40`. -/
def u40 (x : ℕ) : ℕ := x % 1099511627776

/-- C `uint32_t` subtraction `x - y`: wraparound difference modulo
`2^32` (used for all ranging deltas, e.g. `resp_rx_ts - poll_tx_ts`). -/
def u32sub (x y : ℕ) : ℕ := (u32 x + 4294967296 - u32 y) % 4294967296

/-- Reinterpretation of a low-16-bit pattern as a C `int16_t`
(two's complement), applied to an integer value: the C conversion of an
out-of-range value to `int16_t`. -/
def toInt16 (z : ℤ) : ℤ :=
  if z % 65536 < 32768 then z % 65536 else z % 65536 - 65536

/-- Reinterpretation of a C `uint32_t` value as `int32_t`
(two's complement), as in `int32_t rtd_init = resp_rx_ts - poll_tx_ts`
in `ss_twr_initiator_sts_no_data.c`. -/
def toInt32 (x : ℕ) : ℤ :=
  if x % 4294967296 < 2147483648 then (x % 4294967296 : ℤ)
  else (x % 4294967296 : ℤ) - 4294967296

/-- Truncation of a rational toward zero: the C cast
`(int64_t)(double expression)`. -/
def ratTrunc (q : ℚ) : ℤ := q.num.tdiv (q.den : ℤ)

/-! ## Constants of the examples -/

/-- `#define TX_ANT_DLY 16385` (both DS-TWR examples). -/
def TX_ANT_DLY : ℕ := 16385

/-- `#define RX_BUF_LEN 24` — size of the local receive buffer in the
DS-TWR initiator and responder examples. -/
def RX_BUF_LEN : ℕ := 24

/-- `#define ALL_MSG_COMMON_LEN 10` — length of the common frame
prefix compared by `memcmp`. -/
def ALL_MSG_COMMON_LEN : ℕ := 10

/-- `#define ALL_MSG_SN_IDX 2` — index of the sequence-number byte. -/
def ALL_MSG_SN_IDX : ℕ := 2

/-- `#define FCS_LEN 2` — two bytes of frame check sequence appended by
the hardware (`mac_802_15_8.c` line 21 comment: "2 bytes of FCS"). -/
def FCS_LEN : ℕ := 2

/-- Modelled from the spec: `DWT_TIME_UNITS` (defined in
`shared_defines.h`, not under `src/`) is the duration of one device
time unit in seconds, `1/(128·499.2 MHz)` ≈ 15.65 ps (spec glossary). -/
def DWT_TIME_UNITS : ℚ := 1 / 63897600000

/-- Modelled from the spec: `SPEED_OF_LIGHT` (defined in
`shared_defines.h`, not under `src/`), in metres per second. -/
def SPEED_OF_LIGHT : ℚ := 299702547

/-! ## Frame templates (`ds_twr_initiator_sts.c` / `ds_twr_responder_sts.c`) -/

/-- `rx_poll_msg` = `{0x41, 0x88, 0, 0xCA, 0xDE, 'W', 'A', 'V', 'E', 0xE0, 0, 0}`. -/
def rx_poll_msg : List ℕ := [0x41, 0x88, 0, 0xCA, 0xDE, 87, 65, 86, 69, 0xE0, 0, 0]

/-- `rx_resp_msg` = `{0x41, 0x88, 0, 0xCA, 0xDE, 'V', 'E', 'W', 'A', 0xE1, 0, 0}`
(initiator side; identical bytes to the responder's `tx_resp_msg`). -/
def rx_resp_msg : List ℕ := [0x41, 0x88, 0, 0xCA, 0xDE, 86, 69, 87, 65, 0xE1, 0, 0]

/-- `rx_final_msg` = `{0x41, 0x88, 0, 0xCA, 0xDE, 'D', 'E', 'C', 'A', 0xE2, 0, ...}`. -/
def rx_final_msg : List ℕ :=
  [0x41, 0x88, 0, 0xCA, 0xDE, 68, 69, 67, 65, 0xE2, 0, 0, 0, 0, 0, 0, 0, 0, 0, 0, 0, 0, 0, 0]

/-- The frame-validation step of the examples
(`rx_buffer[ALL_MSG_SN_IDX] = 0; memcmp(rx_buffer, msg, ALL_MSG_COMMON_LEN) == 0`):
the received buffer (a byte array, embedded as `ℕ → ℕ`) has its
sequence-number byte zeroed, then its 10-byte common prefix is compared
byte-for-byte with the template. -/
def frameMatches (buf : ℕ → ℕ) (template : List ℕ) : Bool :=
  decide (∀ i, i < ALL_MSG_COMMON_LEN →
    Function.update buf ALL_MSG_SN_IDX 0 i = template.getD i 0)

/-- Modelled from the spec: `final_msg_get_ts` (defined in
`shared_functions.c`, not under `src/`) extracts a 32-bit timestamp
embedded little-endian in 4 bytes at the given index (spec §3:
"32-bit ... little-endian ... at specific byte offsets"). -/
def final_msg_get_ts (buf : ℕ → ℕ) (idx : ℕ) : ℕ :=
  u32 (buf idx + 256 * buf (idx + 1) + 65536 * buf (idx + 2) +
       16777216 * buf (idx + 3))

/-! ## DS-TWR time-of-flight computation
(`ds_twr_responder_sts.c` lines 356-384) -/

/-- Result of the responder's final-message processing: `tof_dtu`
(`int64_t`), `tof` and `distance` (`double`, embedded over `ℚ`). -/
structure DsTwrResult where
  tof_dtu : ℤ
  tof : ℚ
  distance : ℚ
  deriving DecidableEq, Repr

/-- Lines 358-384 of `ds_twr_responder_sts.c`: the three locally
captured timestamps (`poll_rx_ts`, `resp_tx_ts`, `final_rx_ts`, 40-bit
reads) are truncated to 32 bits; the three timestamps received inside
the final message (`poll_tx_ts`, `resp_rx_ts`, `final_tx_ts`) are
already 32-bit.  The four deltas are C `uint32_t` subtractions, the
quotient is computed in `double` (embedded exactly over `ℚ`) and cast
to `int64_t` (truncation toward zero). -/
def ds_twr_compute (poll_rx_ts resp_tx_ts final_rx_ts
    poll_tx_ts resp_rx_ts final_tx_ts : ℕ) : DsTwrResult :=
  let poll_rx_ts_32 := u32 poll_rx_ts
  let resp_tx_ts_32 := u32 resp_tx_ts
  let final_rx_ts_32 := u32 final_rx_ts
  let Ra : ℚ := (u32sub resp_rx_ts poll_tx_ts : ℕ)
  let Rb : ℚ := (u32sub final_rx_ts_32 resp_tx_ts_32 : ℕ)
  let Da : ℚ := (u32sub final_tx_ts resp_rx_ts : ℕ)
  let Db : ℚ := (u32sub resp_tx_ts_32 poll_rx_ts_32 : ℕ)
  let tof_dtu := ratTrunc ((Ra * Rb - Da * Db) / (Ra + Rb + Da + Db))
  { tof_dtu := tof_dtu
    tof := (tof_dtu : ℚ) * DWT_TIME_UNITS
    distance := (tof_dtu : ℚ) * DWT_TIME_UNITS * SPEED_OF_LIGHT }

/-- The denominator `Ra+Rb+Da+Db` of the DS-TWR quotient, as the code
computes it from the same six inputs. -/
def dsTwrDenom (poll_rx_ts resp_tx_ts final_rx_ts
    poll_tx_ts resp_rx_ts final_tx_ts : ℕ) : ℚ :=
  (u32sub resp_rx_ts poll_tx_ts : ℕ) + (u32sub (u32 final_rx_ts) (u32 resp_tx_ts) : ℕ) +
  (u32sub final_tx_ts resp_rx_ts : ℕ) + (u32sub (u32 resp_tx_ts) (u32 poll_rx_ts) : ℕ)

/-! ## Wraparound-subtraction correctness lemmas -/

theorem u32_u40 (x : ℕ) : u32 (u40 x) = u32 x := by
  unfold u32 u40
  exact Nat.mod_mod_of_dvd x (by norm_num)

theorem u32sub_exact {a b : ℕ} (hab : a ≤ b) (h : b - a < 4294967296) :
    u32sub b a = b - a := by
  unfold u32sub u32
  obtain ⟨d, rfl⟩ := Nat.exists_eq_add_of_le hab
  have ha := Nat.mod_lt a (show 0 < 4294967296 by norm_num)
  have hd : d < 4294967296 := by omega
  have h1 : (a + d) % 4294967296 = (a % 4294967296 + d) % 4294967296 := by
    rw [Nat.add_mod, Nat.mod_eq_of_lt hd]
  rw [h1]
  rcases Nat.lt_or_ge (a % 4294967296 + d) 4294967296 with hlt | hge
  · rw [Nat.mod_eq_of_lt hlt]
    have : a % 4294967296 + d + 4294967296 - a % 4294967296 = d + 4294967296 := by omega
    rw [this, Nat.add_mod_right, Nat.mod_eq_of_lt hd]
    omega
  · have h2 : (a % 4294967296 + d) % 4294967296 = a % 4294967296 + d - 4294967296 := by
      have : a % 4294967296 + d - 4294967296 < 4294967296 := by omega
      omega
    rw [h2]
    have : a % 4294967296 + d - 4294967296 + 4294967296 - a % 4294967296 = d := by omega
    rw [this, Nat.mod_eq_of_lt hd]
    omega

theorem u32sub_u40 (a b : ℕ) : u32sub (u40 b) (u40 a) = u32sub b a := by
  unfold u32sub
  rw [u32_u40, u32_u40]

theorem u32sub_u32 (a b : ℕ) : u32sub (u32 b) (u32 a) = u32sub b a := by
  unfold u32sub u32
  rw [Nat.mod_mod_of_dvd b (dvd_refl _), Nat.mod_mod_of_dvd a (dvd_refl _)]

/-! ## SS-TWR time-of-flight computation
(`ss_twr_initiator_sts_no_data.c` lines 345-359) -/

/-- Lines 355-359 of `ss_twr_initiator_sts_no_data.c`:
`rtd_init = resp_rx_ts - poll_tx_ts` and `rtd_resp = resp_tx_ts - poll_rx_ts`
are `uint32_t` wraparound differences stored into `int32_t`;
`tof = ((rtd_init - rtd_resp * (1 - clockOffsetRatio)) / 2.0) * DWT_TIME_UNITS`
and `distance = tof * SPEED_OF_LIGHT` are `float`/`double` expressions,
embedded exactly over `ℚ`.  Returns `(tof, distance)`. -/
def ss_twr_compute (poll_tx_ts resp_rx_ts poll_rx_ts resp_tx_ts : ℕ)
    (clockOffsetRatio : ℚ) : ℚ × ℚ :=
  let rtd_init := toInt32 (u32sub resp_rx_ts poll_tx_ts)
  let rtd_resp := toInt32 (u32sub resp_tx_ts poll_rx_ts)
  let tof := (((rtd_init : ℚ) - (rtd_resp : ℚ) * (1 - clockOffsetRatio)) / 2) *
    DWT_TIME_UNITS
  (tof, tof * SPEED_OF_LIGHT)

/-! ## Spec-side DS-TWR estimator (for the degenerate-timing claim) -/

/-- Error outcome required by the spec for a degenerate capture. -/
inductive TofError where
  | DegenerateTiming
  deriving DecidableEq, Repr

/-- Modelled from the spec: the time-of-flight estimator of §4.2/§7
"must fail with a `DegenerateTiming` error rather than divide by zero"
when `Ra+Rb+Da+Db = 0`.  No such check exists anywhere in the source;
this definition exists only to be compared with `ds_twr_compute`. -/
def ds_twr_tof_spec (Ra Rb Da Db : ℚ) : Except TofError ℚ :=
  if Ra + Rb + Da + Db = 0 then .error .DegenerateTiming
  else .ok ((Ra * Rb - Da * Db) / (Ra + Rb + Da + Db))

/-! ## STS-quality gates -/

/-- `ds_twr_responder_sts.c` line 281 (same shape in
`ds_twr_initiator_sts.c` line 304): the received frame is processed only
when the good-frame status bit is set AND the signed return of
`dwt_readstsquality` is non-negative. -/
def stsGateChecked (rxfcg : Bool) (stsRet : ℤ) : Bool :=
  rxfcg && decide (0 ≤ stsRet)

/-- `ds_twr_sts_sdc_responder.c` lines 222 and 289:
`if (dwt_readstsquality(&stsqual))` — the signed return of
`dwt_readstsquality` is used under C truthiness, so the branch is taken
whenever the return is nonzero. -/
def sdcStsAccepts (stsRet : ℤ) : Bool := decide (stsRet ≠ 0)

/-- `ds_twr_sts_sdc_responder.c` lines 212-234 (poll phase): the
responder goes on to validate the frame and (on a poll match) transmit
its response exactly when the good-frame bit is set, the SDC STS gate
accepts, the (possibly stale) buffer matches the poll template.
Returns `true` iff a response transmission is started. -/
def sdcRespondsToPoll (rxfcg : Bool) (stsRet : ℤ) (buf : ℕ → ℕ) : Bool :=
  rxfcg && sdcStsAccepts stsRet && frameMatches buf rx_poll_msg

/-! ## Pre-computed delayed-transmission timestamps -/

/-- `resp_tx_time = (poll_rx_ts + delay) >> 8` stored into a `uint32_t`
(`ds_twr_responder_sts.c` lines 303-308; same shape for
`final_tx_time` in `ds_twr_initiator_sts.c` line 332). -/
def delayed_tx_time (target : ℕ) : ℕ := u32 (target / 256)

/-- The predicted TX timestamp written into the outgoing frame:
`((uint64_t)(tx_time & 0xFFFFFFFEUL) << 8) + TX_ANT_DLY`
(`ds_twr_responder_sts.c` line 314, `ds_twr_initiator_sts.c` line 335).
`x & 0xFFFFFFFE` clears bit 0, i.e. equals `x - x % 2`. -/
def predicted_tx_ts (target : ℕ) : ℕ :=
  (delayed_tx_time target - delayed_tx_time target % 2) * 256 + TX_ANT_DLY

/-! ## AES frame security, RX path (`mac_802_15_8.c`) -/

/-- `sizeof(mac_frame_802_15_8_format_t)`: five `uint8_t` fields/arrays
of sizes 2+1+6+6+6 = 21 bytes, no padding. -/
def mac_header_size : ℕ := 21

/-- `aes_results_e` outcomes used by `rx_aes_802_15_8`. -/
inductive AesResult where
  | ok           -- AES_RES_OK
  | error        -- AES_RES_ERROR
  | errorLength  -- AES_RES_ERROR_LENGTH
  | errorFrame   -- AES_RES_ERROR_FRAME
  deriving DecidableEq, Repr

/-- Result of the RX AES path, instrumented with whether the hardware
job `dwt_do_aes` was invoked. -/
structure AesRxRes where
  result : AesResult
  hwInvoked : Bool
  deriving DecidableEq, Repr

/-- `mac_802_15_8.c` line 21:
`payload_len = frame_length - (sizeof(header) + aes_job->mic_size + FCS_LEN)`.
The right-hand side is computed in unsigned `size_t` arithmetic and
stored into an `int16_t`; the resulting bit pattern is the integer
difference reduced modulo `2^16` and reinterpreted as two's
complement, which `toInt16` performs directly on the difference. -/
def payload_len_of (frame_length mic_size : ℕ) : ℤ :=
  toInt16 ((frame_length : ℤ) - ((mac_header_size : ℤ) + mic_size + FCS_LEN))

/-- `rx_aes_802_15_8` (`mac_802_15_8.c` lines 13-70).  The caller-side
inputs are `frame_length`, `aes_job->mic_size` and the payload buffer
capacity `payload_load_size`; the hardware job `dwt_do_aes` is an
external collaborator whose signed completion status is `hwStatus` and
whose `AES_ERRORS` bit test is `hwErrBits`.  The length gate
`payload_len >= 0 && payload_len < payload_load_size` is checked before
the job is invoked; otherwise `AES_RES_ERROR_FRAME` is returned. -/
def rx_aes_802_15_8 (frame_length mic_size payload_load_size : ℕ)
    (hwStatus : ℤ) (hwErrBits : Bool) : AesRxRes :=
  let payload_len := payload_len_of frame_length mic_size
  if 0 ≤ payload_len ∧ payload_len < (payload_load_size : ℤ) then
    { hwInvoked := true
      result :=
        if hwStatus < 0 then .errorLength
        else if hwErrBits then .error
        else .ok }
  else
    { hwInvoked := false, result := .errorFrame }

/-! ## Timestamp reads

Modelled from the spec: `get_rx_timestamp_u64` / `get_tx_timestamp_u64`
(defined in `shared_functions.c`, not under `src/`) read the captured
40-bit device timestamp (spec §6: `readTimestamp(which) -> u64`, 40-bit
device time).  The register content is the true event time modulo
`2^40`. -/
def read_timestamp_u64 (trueTime : ℕ) : ℕ := u40 trueTime

/-! ## The DS-TWR responder loop body (`ds_twr_responder_sts.c` lines 235-449)

One call of `respStep` is one iteration of the `while` loop, driven by
an environment record carrying everything the hardware reports during
that iteration.  Effects on the radio (`dwt_writetodevice(STS_IV0_ID, ...)`,
`dwt_readrxdata`, the `TXFRS` busy-wait) are instrumented as counters
and booleans.  `check_for_status_errors` (a diagnostic counter helper
in `shared_functions.c`, not under `src/`) touches only error counters
not modelled here. -/

/-- Hardware-reported inputs of one responder loop iteration. -/
structure RespEnv where
  /-- `SYS_STATUS_RXFCG_BIT_MASK` set in `status_reg` (good frame);
  otherwise the wait ended in RX error/timeout. -/
  rxfcg : Bool
  /-- signed return of `dwt_readstsquality` (negative = bad STS). -/
  stsRet : ℤ
  /-- STS quality index written through `dwt_readstsquality`'s out
  parameter. -/
  stsQual : ℤ
  /-- `dwt_read32bitreg(RX_FINFO_ID) & RXFLEN_MASK`. -/
  frameLen : ℕ
  /-- received frame bytes as copied by `dwt_readrxdata`. -/
  bytes : ℕ → ℕ
  /-- true event time of the RX timestamp captured this iteration. -/
  rxTsRaw : ℕ
  /-- true event time of the TX timestamp captured this iteration. -/
  txTsRaw : ℕ
  /-- `dwt_starttx(DWT_START_TX_DELAYED | DWT_RESPONSE_EXPECTED) == DWT_SUCCESS`. -/
  startOk : Bool

/-- Responder state across loop iterations (the file-level statics and
locals of `app_main` that survive one iteration). -/
structure RespState where
  /-- `messageFlag`: suppresses the STS-counter reload while an
  exchange is in flight. -/
  messageFlag : Bool
  /-- `loopCount`. -/
  loopCount : ℕ
  /-- `frame_seq_nb` (`uint8_t`). -/
  frameSeqNb : ℕ
  /-- `poll_rx_ts` static. -/
  pollRxTs : ℕ
  /-- `resp_tx_ts` static: holds the predicted response TX timestamp
  after the poll phase (line 314), overwritten by the live TX
  timestamp read in the final phase (line 364). -/
  respTxTs : ℕ
  /-- instrumentation: number of times the STS IV counter was loaded
  into the radio (`dwt_configurestsiv`/`dwt_writetodevice(STS_IV0_ID,...)`
  followed by `dwt_configurestsloadiv`). -/
  ivReloads : ℕ
  /-- `errors[BAD_FRAME_ERR_IDX]`. -/
  errBadFrame : ℕ
  /-- `errors[RTO_ERR_IDX]` (also counted for an oversized frame). -/
  errRto : ℕ
  /-- `errors[PREAMBLE_COUNT_ERR_IDX]`. -/
  errPreamble : ℕ
  /-- `errors[CP_QUAL_ERR_IDX]`. -/
  errCpQual : ℕ
  deriving DecidableEq, Repr

/-- Outcome of one responder loop iteration. -/
inductive RespOutcome where
  /-- response transmitted; awaiting the final message. -/
  | respSent
  /-- `dwt_starttx` rejected the delayed transmission; exchange abandoned. -/
  | lateStart
  /-- final message received; distance computed and recorded. -/
  | report (r : DsTwrResult)
  /-- common prefix matched neither the poll nor the final template. -/
  | badFrame
  /-- reported frame length exceeds `RX_BUF_LEN`. -/
  | frameTooLong
  /-- RX error/timeout, or negative STS quality on a good frame. -/
  | rxErrOrBadSts
  deriving DecidableEq, Repr

/-- One responder loop iteration: next state, outcome, and whether
`dwt_readrxdata` (frame copy) and the `TXFRS` busy-wait were executed. -/
structure RespStepRes where
  state : RespState
  outcome : RespOutcome
  copied : Bool
  waitsTxDone : Bool
  deriving DecidableEq, Repr

/-- The responder loop body.  `respDelayDtu` is the configured
turnaround delay in device time units
(`(POLL_RX_TO_RESP_TX_DLY_UUS + rate/preamble/STS-length terms) * UUS_TO_DWT_TIME`,
a pure function of the radio configuration). -/
def respStep (respDelayDtu : ℕ) (s : RespState) (e : RespEnv) : RespStepRes :=
  -- lines 240-267: reload the STS counter and re-arm RX only when no
  -- exchange is in flight
  let s := if s.messageFlag then s
    else { s with ivReloads := s.ivReloads + 1, loopCount := s.loopCount + 1 }
  -- line 281
  if stsGateChecked e.rxfcg e.stsRet then
    -- lines 287-288
    if e.frameLen ≤ RX_BUF_LEN then
      let buf := Function.update e.bytes ALL_MSG_SN_IDX 0
      -- line 296
      if frameMatches e.bytes rx_poll_msg then
        -- lines 298-353
        let poll_rx_ts := read_timestamp_u64 e.rxTsRaw
        -- lines 303-314: pre-computed delayed TX time and predicted
        -- response TX timestamp
        let resp_tx_ts := predicted_tx_ts (poll_rx_ts + respDelayDtu)
        if e.startOk then
          { state := { s with messageFlag := true
                              pollRxTs := poll_rx_ts
                              respTxTs := resp_tx_ts
                              frameSeqNb := (s.frameSeqNb + 1) % 256 }
            outcome := .respSent, copied := true, waitsTxDone := true }
        else
          { state := { s with pollRxTs := poll_rx_ts, respTxTs := resp_tx_ts }
            outcome := .lateStart, copied := true, waitsTxDone := false }
      -- line 355
      else if frameMatches e.bytes rx_final_msg then
        -- lines 357-407
        let resp_tx_ts := read_timestamp_u64 e.txTsRaw
        let final_rx_ts := read_timestamp_u64 e.rxTsRaw
        let poll_tx_ts := final_msg_get_ts buf 10
        let resp_rx_ts := final_msg_get_ts buf 14
        let final_tx_ts := final_msg_get_ts buf 18
        { state := { s with messageFlag := false, respTxTs := resp_tx_ts }
          outcome := .report (ds_twr_compute s.pollRxTs resp_tx_ts final_rx_ts
            poll_tx_ts resp_rx_ts final_tx_ts)
          copied := true, waitsTxDone := false }
      else
        -- lines 409-416
        { state := { s with messageFlag := false
                            errBadFrame := s.errBadFrame + 1 }
          outcome := .badFrame, copied := true, waitsTxDone := false }
    else
      -- lines 418-425
      { state := { s with messageFlag := false, errRto := s.errRto + 1 }
        outcome := .frameTooLong, copied := false, waitsTxDone := false }
  else
    -- lines 427-448
    { state := { s with
        messageFlag := false
        errBadFrame := if e.rxfcg then s.errBadFrame else s.errBadFrame + 1
        errPreamble := if e.stsRet < 0 then s.errPreamble + 1 else s.errPreamble
        errCpQual := if e.stsQual ≤ 0 then s.errCpQual + 1 else s.errCpQual }
      outcome := .rxErrOrBadSts, copied := false, waitsTxDone := false }

/-! ## The DS-TWR initiator loop body (`ds_twr_initiator_sts.c` lines 259-393) -/

/-- Hardware-reported inputs of one initiator loop iteration. -/
structure InitEnv where
  rxfcg : Bool
  stsRet : ℤ
  stsQual : ℤ
  frameLen : ℕ
  bytes : ℕ → ℕ
  rxTsRaw : ℕ
  txTsRaw : ℕ
  /-- `dwt_starttx(DWT_START_TX_DELAYED) == DWT_SUCCESS` for the final
  message. -/
  startOk : Bool

/-- Initiator state across loop iterations. -/
structure InitState where
  /-- `frame_seq_nb` (`uint8_t`). -/
  frameSeqNb : ℕ
  errBadFrame : ℕ
  errRto : ℕ
  errPreamble : ℕ
  errCpQual : ℕ
  deriving DecidableEq, Repr

/-- Outcome of one initiator loop iteration. -/
inductive InitOutcome where
  /-- final message transmitted at the pre-computed delayed time. -/
  | finalSent
  /-- `dwt_starttx(DWT_START_TX_DELAYED)` rejected the target time;
  exchange abandoned. -/
  | lateStart
  | badFrame
  | frameTooLong
  | rxErrOrBadSts
  deriving DecidableEq, Repr

/-- One initiator loop iteration.  `waitsTxDone` is `true` exactly when
the busy-wait on `SYS_STATUS_TXFRS_BIT_MASK` at lines 353-354 (the one
guarded by `ret == DWT_SUCCESS`) is entered. -/
structure InitStepRes where
  state : InitState
  outcome : InitOutcome
  copied : Bool
  waitsTxDone : Bool
  /-- the three 32-bit timestamps written into the outgoing final
  message by `final_msg_set_ts` (lines 338-340): poll TX, response RX,
  predicted final TX; `none` when no final message was prepared. -/
  finalMsg : Option (ℕ × ℕ × ℕ)
  deriving DecidableEq, Repr

/-- The initiator loop body.  `initDelayDtu` is
`RESP_RX_TO_FINAL_TX_DLY_UUS * UUS_TO_DWT_TIME`. -/
def initStep (initDelayDtu : ℕ) (s : InitState) (e : InitEnv) : InitStepRes :=
  -- line 299: frame_seq_nb++ after the poll transmission, unconditionally
  let s := { s with frameSeqNb := (s.frameSeqNb + 1) % 256 }
  -- line 304
  if stsGateChecked e.rxfcg e.stsRet then
    -- line 312
    if e.frameLen ≤ RX_BUF_LEN then
      -- line 321
      if frameMatches e.bytes rx_resp_msg then
        -- lines 322-345
        let poll_tx_ts := read_timestamp_u64 e.txTsRaw
        let resp_rx_ts := read_timestamp_u64 e.rxTsRaw
        -- lines 332-335: pre-computed delayed TX time and predicted
        -- final TX timestamp
        let final_tx_ts := predicted_tx_ts (resp_rx_ts + initDelayDtu)
        -- lines 338-340: `final_msg_set_ts` embeds the low 32 bits of
        -- each timestamp, 4 bytes little-endian
        let msg := some (u32 poll_tx_ts, u32 resp_rx_ts, u32 final_tx_ts)
        -- lines 347-362
        if e.startOk then
          { state := { s with frameSeqNb := (s.frameSeqNb + 1) % 256 }
            outcome := .finalSent, copied := true, waitsTxDone := true
            finalMsg := msg }
        else
          { state := s, outcome := .lateStart
            copied := true, waitsTxDone := false, finalMsg := msg }
      else
        -- line 365
        { state := { s with errBadFrame := s.errBadFrame + 1 }
          outcome := .badFrame, copied := true, waitsTxDone := false
          finalMsg := none }
    else
      -- line 369
      { state := { s with errRto := s.errRto + 1 }
        outcome := .frameTooLong, copied := false, waitsTxDone := false
        finalMsg := none }
  else
    -- lines 372-384
    { state := { s with
        errBadFrame := if e.rxfcg then s.errBadFrame else s.errBadFrame + 1
        errPreamble := if e.stsRet < 0 then s.errPreamble + 1 else s.errPreamble
        errCpQual := if e.stsQual ≤ 0 then s.errCpQual + 1 else s.errCpQual }
      outcome := .rxErrOrBadSts, copied := false, waitsTxDone := false
      finalMsg := none }

/-- `ds_twr_sts_sdc_responder.c` lines 259-273: after
`ret = dwt_starttx(DWT_START_TX_DELAYED | DWT_RESPONSE_EXPECTED)`,
`if (ret == DWT_ERROR) continue;` — the busy-wait for the final-message
RX event is entered only when the delayed start succeeded.  Returns
`true` iff the wait loop at lines 269-273 is entered. -/
def sdcWaitsForFinal (startOk : Bool) : Bool := startOk

/-! ## Sample inputs used by witness theorems -/

/-- A received buffer holding the poll frame with sequence number 7. -/
def pollFrameBytes : ℕ → ℕ := fun i => if i = 2 then 7 else rx_poll_msg.getD i 0

/-- A received buffer holding the response frame with sequence number 3. -/
def respFrameBytes : ℕ → ℕ := fun i => if i = 2 then 3 else rx_resp_msg.getD i 0

/-- The poll frame with byte 5 (destination address) corrupted. -/
def pollFrameCorrupt : ℕ → ℕ := fun i => if i = 5 then 0 else rx_poll_msg.getD i 0

/-- Initial responder state. -/
def respState0 : RespState :=
  { messageFlag := false, loopCount := 0, frameSeqNb := 0, pollRxTs := 0
    respTxTs := 0, ivReloads := 0, errBadFrame := 0, errRto := 0
    errPreamble := 0, errCpQual := 0 }

/-- A responder iteration ending in an RX error/timeout. -/
def respEnvErr : RespEnv :=
  { rxfcg := false, stsRet := -1, stsQual := 0, frameLen := 0
    bytes := fun _ => 0, rxTsRaw := 0, txTsRaw := 0, startOk := false }

/-- A responder iteration reporting a 30-byte frame (longer than the
24-byte buffer). -/
def respEnvTooLong : RespEnv :=
  { rxfcg := true, stsRet := 0, stsQual := 1, frameLen := 30
    bytes := fun _ => 0, rxTsRaw := 0, txTsRaw := 0, startOk := true }

/-- Initial initiator state. -/
def initState0 : InitState :=
  { frameSeqNb := 0, errBadFrame := 0, errRto := 0, errPreamble := 0
    errCpQual := 0 }

/-- An initiator iteration in which the response is good but the
delayed start of the final message is rejected (late start). -/
def initEnvLate : InitEnv :=
  { rxfcg := true, stsRet := 0, stsQual := 1, frameLen := 12
    bytes := respFrameBytes, rxTsRaw := 5000, txTsRaw := 1000, startOk := false }

/-- An initiator iteration reporting a 30-byte frame. -/
def initEnvTooLong : InitEnv :=
  { rxfcg := true, stsRet := 0, stsQual := 1, frameLen := 30
    bytes := fun _ => 0, rxTsRaw := 0, txTsRaw := 0, startOk := true }

/-! ## Claims -/

/-- C7: the predicted TX timestamp of a pre-computed reply (responder's
Response from `poll_rx_ts`, initiator's Final from `resp_rx_ts`) equals
the target time (RX timestamp plus configured turnaround delay) rounded
down to a 512-device-time-unit boundary — realized as the 32-bit value
`target >> 8` with bit 0 cleared, shifted left by 8 — plus the TX
antenna delay.  Both call sites are embedded by `predicted_tx_ts`,
used by `respStep` (poll branch) and `initStep` (response branch). -/
theorem predicted_tx_rounds_to_512 (target : ℕ) (h : target < 1099511627776) :
    predicted_tx_ts target = (target - target % 512) + TX_ANT_DLY := by
  unfold predicted_tx_ts delayed_tx_time u32
  have h1 : target / 256 < 4294967296 := by omega
  rw [Nat.mod_eq_of_lt h1]
  omega

/-- Witness for C7 at the concrete target time 123456789. -/
theorem predicted_tx_rounds_to_512_witness :
    predicted_tx_ts 123456789 = (123456789 - 123456789 % 512) + TX_ANT_DLY :=
  predicted_tx_rounds_to_512 123456789 (by norm_num)

/-- C2 (code bug): the DS-TWR responder performs the division even when
the denominator `Ra+Rb+Da+Db` is zero.  At a capture with all six
timestamps zero the denominator is zero, yet `ds_twr_compute`
(the embedding of `ds_twr_responder_sts.c` lines 358-384, which has no
zero check) still produces a numeric report, while the spec-side
estimator `ds_twr_tof_spec` fails with `DegenerateTiming`. -/
theorem ds_twr_divides_on_degenerate_capture :
    dsTwrDenom 0 0 0 0 0 0 = 0 ∧
    ds_twr_tof_spec 0 0 0 0 = .error .DegenerateTiming ∧
    ds_twr_compute 0 0 0 0 0 0 =
      { tof_dtu := 0, tof := 0, distance := 0 } := by
  refine ⟨?_, ?_, ?_⟩
  · norm_num [dsTwrDenom, u32sub, u32]
  · norm_num [ds_twr_tof_spec]
  · simp only [ds_twr_compute, u32sub, u32, ratTrunc]
    norm_num

/-- C4 (code bug): the SDC responder (`ds_twr_sts_sdc_responder.c`
lines 222/289) gates on the C truthiness of `dwt_readstsquality`'s
signed return, so a *negative* (bad-STS) return is accepted and the
responder proceeds to validate the frame and transmit its response,
whereas the checked gate of `ds_twr_responder_sts.c` line 281 rejects
the same frame. -/
theorem sdc_accepts_negative_sts :
    sdcRespondsToPoll true (-1) pollFrameBytes = true ∧
    stsGateChecked true (-1) = false := by
  constructor
  · decide
  · decide

/-- C8: a delayed transmission whose start is rejected never leaves the
state machine busy-waiting: the initiator's `TXFRS` wait loop (lines
353-354 of `ds_twr_initiator_sts.c`) is entered only when
`dwt_starttx` returned success, and the SDC responder's final-RX wait
(after `if (ret == DWT_ERROR) continue;`) likewise. -/
theorem late_start_aborts (d : ℕ) (s : InitState) (e : InitEnv) :
    ((initStep d s e).waitsTxDone = true → e.startOk = true) ∧
    (e.startOk = false →
      (initStep d s e).waitsTxDone = false ∧ sdcWaitsForFinal e.startOk = false) := by
  unfold initStep sdcWaitsForFinal
  split_ifs <;> simp_all

/-- Witness for C8: a concrete late-start iteration neither enters the
`TXFRS` wait nor (in the SDC variant) the final-RX wait. -/
theorem late_start_aborts_witness :
    (initStep 0 initState0 initEnvLate).waitsTxDone = false ∧
    sdcWaitsForFinal initEnvLate.startOk = false :=
  (late_start_aborts 0 initState0 initEnvLate).2 rfl

/-- C9: the AES RX path computes
`payload_len = frame_length - (sizeof(header) + mic_size + FCS_LEN)` as
a signed value and invokes the hardware job `dwt_do_aes` exactly when
`0 <= payload_len < payload_load_size`; every violation returns
`AES_RES_ERROR_FRAME` with the hardware job never invoked. -/
theorem aes_length_gate (fl mic cap : ℕ) (st : ℤ) (eb : Bool) :
    ((rx_aes_802_15_8 fl mic cap st eb).hwInvoked = true ↔
      0 ≤ payload_len_of fl mic ∧ payload_len_of fl mic < (cap : ℤ)) ∧
    (payload_len_of fl mic < 0 ∨ (cap : ℤ) ≤ payload_len_of fl mic →
      rx_aes_802_15_8 fl mic cap st eb =
        { result := .errorFrame, hwInvoked := false }) := by
  by_cases hgate : 0 ≤ payload_len_of fl mic ∧ payload_len_of fl mic < (cap : ℤ)
  · refine ⟨by simp [rx_aes_802_15_8, hgate], ?_⟩
    intro hbad
    exfalso
    obtain ⟨h1, h2⟩ := hgate
    rcases hbad with h3 | h3 <;> omega
  · exact ⟨by simp [rx_aes_802_15_8, hgate], fun _ => by simp [rx_aes_802_15_8, hgate]⟩

/-- Witness for C9: a 10-byte frame with a 16-byte MIC yields a
negative `payload_len` and `AES_RES_ERROR_FRAME` without invoking the
hardware. -/
theorem aes_length_gate_witness :
    payload_len_of 10 16 < 0 ∧
    rx_aes_802_15_8 10 16 128 0 false =
      { result := .errorFrame, hwInvoked := false } :=
  ⟨by decide, (aes_length_gate 10 16 128 0 false).2 (Or.inl (by decide))⟩

/-- C10: in the DS-TWR initiator and responder, the frame copy
(`dwt_readrxdata`) happens only when the reported frame length fits the
24-byte buffer; an oversized frame is never copied, bumps the error
array (`errors[RTO_ERR_IDX]`), and the frame-validation /
timestamp-processing steps are skipped (outcome `frameTooLong`). -/
theorem oversized_frame_skipped :
    (∀ (d : ℕ) (s : RespState) (e : RespEnv), e.rxfcg = true → 0 ≤ e.stsRet →
      RX_BUF_LEN < e.frameLen →
      (respStep d s e).copied = false ∧
      (respStep d s e).outcome = .frameTooLong ∧
      (respStep d s e).state.errRto = s.errRto + 1) ∧
    (∀ (d : ℕ) (s : RespState) (e : RespEnv),
      (respStep d s e).copied = true → e.frameLen ≤ RX_BUF_LEN) ∧
    (∀ (d : ℕ) (s : InitState) (e : InitEnv), e.rxfcg = true → 0 ≤ e.stsRet →
      RX_BUF_LEN < e.frameLen →
      (initStep d s e).copied = false ∧
      (initStep d s e).outcome = .frameTooLong ∧
      (initStep d s e).state.errRto = s.errRto + 1) ∧
    (∀ (d : ℕ) (s : InitState) (e : InitEnv),
      (initStep d s e).copied = true → e.frameLen ≤ RX_BUF_LEN) := by
  refine ⟨?_, ?_, ?_, ?_⟩
  · intro d s e hrx hsts hlen
    have hg : stsGateChecked e.rxfcg e.stsRet = true := by
      simp [stsGateChecked, hrx, hsts]
    have hnl : ¬(e.frameLen ≤ RX_BUF_LEN) := by omega
    cases hm : s.messageFlag <;> simp [respStep, hg, hm, hnl]
  · intro d s e h
    by_contra hlen
    unfold respStep at h
    split_ifs at h
  · intro d s e hrx hsts hlen
    have hg : stsGateChecked e.rxfcg e.stsRet = true := by
      simp [stsGateChecked, hrx, hsts]
    have hnl : ¬(e.frameLen ≤ RX_BUF_LEN) := by omega
    simp [initStep, hg, hnl]
  · intro d s e h
    by_contra hlen
    unfold initStep at h
    split_ifs at h

/-- Witness for C10: a 30-byte reported frame is not copied, is counted,
and skips validation on both machines. -/
theorem oversized_frame_skipped_witness :
    (respStep 0 respState0 respEnvTooLong).copied = false ∧
    (respStep 0 respState0 respEnvTooLong).state.errRto = respState0.errRto + 1 ∧
    (initStep 0 initState0 initEnvTooLong).outcome = .frameTooLong :=
  ⟨(oversized_frame_skipped.1 0 respState0 respEnvTooLong rfl (by decide) (by decide)).1,
   (oversized_frame_skipped.1 0 respState0 respEnvTooLong rfl (by decide) (by decide)).2.2,
   (oversized_frame_skipped.2.2.1 0 initState0 initEnvTooLong rfl (by decide) (by decide)).2.1⟩

/-- C6: frame validation zeroes the sequence-number byte (index 2) and
then byte-compares the 10-byte common prefix against the expected
template: a frame agreeing with the template everywhere except possibly
byte 2 is accepted whatever its sequence number, and a frame differing
in any of the other nine prefix bytes is rejected (`Mismatch`). -/
theorem seq_number_ignored_in_match (buf : ℕ → ℕ) (t : List ℕ)
    (ht : t = rx_poll_msg ∨ t = rx_resp_msg ∨ t = rx_final_msg) :
    ((∀ i, i < ALL_MSG_COMMON_LEN → i ≠ ALL_MSG_SN_IDX → buf i = t.getD i 0) →
      frameMatches buf t = true) ∧
    (∀ j, j < ALL_MSG_COMMON_LEN → j ≠ ALL_MSG_SN_IDX → buf j ≠ t.getD j 0 →
      frameMatches buf t = false) := by
  constructor
  · intro h
    unfold frameMatches
    apply decide_eq_true
    intro i hi
    rcases eq_or_ne i ALL_MSG_SN_IDX with rfl | hne
    · rw [Function.update_same]
      rcases ht with rfl | rfl | rfl <;> rfl
    · rw [Function.update_noteq hne]
      exact h i hi hne
  · intro j hj hjne hdiff
    unfold frameMatches
    apply decide_eq_false
    intro hall
    apply hdiff
    have h := hall j hj
    rwa [Function.update_noteq hjne] at h

/-- Witness for C6: the poll frame with sequence number 7 matches the
poll template; corrupting byte 5 makes it mismatch. -/
theorem seq_number_ignored_in_match_witness :
    frameMatches pollFrameBytes rx_poll_msg = true ∧
    frameMatches pollFrameCorrupt rx_poll_msg = false :=
  ⟨(seq_number_ignored_in_match pollFrameBytes rx_poll_msg (Or.inl rfl)).1
      (by decide),
   (seq_number_ignored_in_match pollFrameCorrupt rx_poll_msg (Or.inl rfl)).2
      5 (by decide) (by decide) (by decide)⟩

/-- C5: the responder reloads the STS counter into the radio only when
no exchange is in flight (`messageFlag` clear); once a Response was
validly transmitted (`respSent` sets the flag) no reload happens until
the exchange concludes, and each concluding outcome — final received,
bad frame, oversized frame, RX error/timeout/bad STS — clears the flag
so the next exchange starting from idle reloads the counter. -/
theorem sts_resync_suppression (d : ℕ) (s : RespState) (e : RespEnv) :
    (s.messageFlag = true → (respStep d s e).state.ivReloads = s.ivReloads) ∧
    (s.messageFlag = false →
      (respStep d s e).state.ivReloads = s.ivReloads + 1) ∧
    ((respStep d s e).outcome = .respSent →
      (respStep d s e).state.messageFlag = true) ∧
    (∀ r, (respStep d s e).outcome = .report r →
      (respStep d s e).state.messageFlag = false) ∧
    ((respStep d s e).outcome = .badFrame →
      (respStep d s e).state.messageFlag = false) ∧
    ((respStep d s e).outcome = .frameTooLong →
      (respStep d s e).state.messageFlag = false) ∧
    ((respStep d s e).outcome = .rxErrOrBadSts →
      (respStep d s e).state.messageFlag = false) := by
  cases hm : s.messageFlag <;>
    · unfold respStep
      split_ifs <;> simp_all

/-- Witness for C5: from idle, an RX-error iteration reloads the
counter once and leaves the flag clear. -/
theorem sts_resync_suppression_witness :
    (respStep 0 respState0 respEnvErr).state.ivReloads = respState0.ivReloads + 1 ∧
    (respStep 0 respState0 respEnvErr).state.messageFlag = false :=
  ⟨(sts_resync_suppression 0 respState0 respEnvErr).2.1 rfl,
   (sts_resync_suppression 0 respState0 respEnvErr).2.2.2.2.2.2 rfl⟩

/-! ## Exactness of the 32-bit deltas for `int32_t` interpretation -/

theorem toInt32_of_lt {d : ℕ} (h : d < 2147483648) : toInt32 d = (d : ℤ) := by
  unfold toInt32
  rw [if_pos (show d % 4294967296 < 2147483648 by omega)]
  omega

/-- C3: the SS-TWR initiator computes `rtd_init = resp_rx − poll_tx`
and `rtd_resp = resp_tx − poll_rx` as 32-bit deltas and reports
`ToF = (Ra − Rb·(1−k))/2` device time units (scaled by
`DWT_TIME_UNITS`), then `distance = ToF · SPEED_OF_LIGHT`: for true
event times whose deltas stay below `2^31` the computation on the
captured low-32-bit timestamps equals the formula on the exact
deltas. -/
theorem ss_twr_formula (ipTx irRx rpRx rrTx : ℕ) (k : ℚ)
    (h1 : ipTx ≤ irRx) (hRa : irRx - ipTx < 2147483648)
    (h2 : rpRx ≤ rrTx) (hRb : rrTx - rpRx < 2147483648) :
    ss_twr_compute (u32 ipTx) (u32 irRx) (u32 rpRx) (u32 rrTx) k =
      ((((irRx - ipTx : ℕ) : ℚ) - ((rrTx - rpRx : ℕ) : ℚ) * (1 - k)) / 2 *
         DWT_TIME_UNITS,
       (((irRx - ipTx : ℕ) : ℚ) - ((rrTx - rpRx : ℕ) : ℚ) * (1 - k)) / 2 *
         DWT_TIME_UNITS * SPEED_OF_LIGHT) := by
  have eRa : u32sub (u32 irRx) (u32 ipTx) = irRx - ipTx := by
    rw [u32sub_u32]; exact u32sub_exact h1 (by omega)
  have eRb : u32sub (u32 rrTx) (u32 rpRx) = rrTx - rpRx := by
    rw [u32sub_u32]; exact u32sub_exact h2 (by omega)
  simp only [ss_twr_compute, eRa, eRb, toInt32_of_lt hRa, toInt32_of_lt hRb]
  push_cast
  ring_nf

/-- Witness for C3, at the spec's concrete exchange:
`T_poll_tx=1000, T_poll_rx=1050, T_resp_tx=1300, T_resp_rx=1360, k=0`
gives `ToF_dtu = (360−250)/2 = 55`, i.e.
`tof = 55·DWT_TIME_UNITS` seconds and
`distance = 55·DWT_TIME_UNITS·SPEED_OF_LIGHT`. -/
theorem ss_twr_formula_witness :
    ss_twr_compute 1000 1360 1050 1300 0 =
      (55 * DWT_TIME_UNITS, 55 * DWT_TIME_UNITS * SPEED_OF_LIGHT) := by
  have h := ss_twr_formula 1000 1360 1050 1300 0 (by norm_num) (by norm_num)
    (by norm_num) (by norm_num)
  norm_num [u32] at h
  rw [h]

/-! ## DS-TWR delta/ToF correctness over the wrapping clock (C1) -/

/-- The DS-TWR formula of spec §4.2 applied to exact (unwrapped)
deltas: `ToF_dtu = (Ra·Rb − Da·Db)/(Ra+Rb+Da+Db)` truncated to an
integer, `tof = ToF_dtu·DWT_TIME_UNITS`,
`distance = tof·SPEED_OF_LIGHT`. -/
def dsTwrSpecResult (Ra Rb Da Db : ℕ) : DsTwrResult :=
  let t := ratTrunc (((Ra : ℚ) * Rb - (Da : ℚ) * Db) /
    ((Ra : ℚ) + Rb + Da + Db))
  { tof_dtu := t
    tof := (t : ℚ) * DWT_TIME_UNITS
    distance := (t : ℚ) * DWT_TIME_UNITS * SPEED_OF_LIGHT }

/-- C1: for every complete DS-TWR exchange, the responder's computation
on the captured wrapped timestamps — 40-bit local captures, 32-bit
frame-embedded remote captures, all deltas as 32-bit wraparound
subtractions — equals the spec formula on the true deltas, provided no
two timestamps of the exchange are separated by `2^32` or more device
time units; the 40-bit clock may wrap between events.  True event
times: `ipTx ≤ irRx ≤ ifTx` on the initiator clock (poll TX, response
RX, final TX), `rpRx ≤ rrTx ≤ rfRx` on the responder clock (poll RX,
response TX, final RX). -/
theorem ds_twr_wrap_correct (ipTx irRx ifTx rpRx rrTx rfRx : ℕ)
    (h1 : ipTx ≤ irRx) (h2 : irRx ≤ ifTx)
    (h3 : rpRx ≤ rrTx) (h4 : rrTx ≤ rfRx)
    (hRa : irRx - ipTx < 4294967296) (hDa : ifTx - irRx < 4294967296)
    (hDb : rrTx - rpRx < 4294967296) (hRb : rfRx - rrTx < 4294967296) :
    ds_twr_compute (u40 rpRx) (u40 rrTx) (u40 rfRx)
      (u32 ipTx) (u32 irRx) (u32 ifTx) =
    dsTwrSpecResult (irRx - ipTx) (rfRx - rrTx) (ifTx - irRx) (rrTx - rpRx) := by
  have eRa : u32sub (u32 irRx) (u32 ipTx) = irRx - ipTx := by
    rw [u32sub_u32]; exact u32sub_exact h1 hRa
  have eDa : u32sub (u32 ifTx) (u32 irRx) = ifTx - irRx := by
    rw [u32sub_u32]; exact u32sub_exact h2 hDa
  have eRb : u32sub (u32 (u40 rfRx)) (u32 (u40 rrTx)) = rfRx - rrTx := by
    rw [u32sub_u32, u32sub_u40, ← u32sub_u32]
    rw [u32sub_u32]; exact u32sub_exact h4 hRb
  have eDb : u32sub (u32 (u40 rrTx)) (u32 (u40 rpRx)) = rrTx - rpRx := by
    rw [u32sub_u32, u32sub_u40, ← u32sub_u32]
    rw [u32sub_u32]; exact u32sub_exact h3 hDb
  simp only [ds_twr_compute, dsTwrSpecResult, eRa, eRb, eDa, eDb]

/-- Witness for C1: a concrete exchange in which the initiator's
40-bit clock wraps between the poll TX and the response RX
(`ipTx = 2^40 − 100`, `irRx = 2^40 + 900`, `ifTx = 2^40 + 1500`,
responder times 300/905/1900): deltas 1000, 995, 600, 605. -/
theorem ds_twr_wrap_correct_witness :
    ds_twr_compute (u40 300) (u40 905) (u40 1900)
      (u32 1099511627676) (u32 1099511628676) (u32 1099511629176) =
    dsTwrSpecResult (1099511628676 - 1099511627676) (1900 - 905)
      (1099511629176 - 1099511628676) (905 - 300) :=
  ds_twr_wrap_correct 1099511627676 1099511628676 1099511629176 300 905 1900
    (by norm_num) (by norm_num) (by norm_num) (by norm_num)
    (by norm_num) (by norm_num) (by norm_num) (by norm_num)

end DWM3000
